import Mathlib

/-!
Shallow embedding of `gossip/remote_iterator_creator.go` and proofs about it.

The Go file implements a remote iterator creator for a clustered time-series
database: three RPC operations (`CreateIterator`, `FieldDimensions`,
`ExpandSources`) against a remote node, a node-directory resolver
(`AliveNodesMap`) and a retrying request executor (`ExpBackoffRequest`).

External effects (HTTP round trips, protobuf and JSON codecs, configuration
lookups) are modelled as explicit environment records supplying the outcome
of each external call; the control flow, error propagation, URL construction,
map building and the trace of body closes and sleeps are translated
statement by statement from the source.
-/

namespace Gossip

/-- Decidable equality for `Except` values, needed to evaluate concrete
results by `decide`. -/
instance {ε α : Type} [DecidableEq ε] [DecidableEq α] : DecidableEq (Except ε α) :=
  fun a b =>
    match a, b with
    | .error e, .error f =>
      if h : e = f then .isTrue (h ▸ rfl) else .isFalse (fun hc => h (Except.error.inj hc))
    | .error _, .ok _ => .isFalse (fun hc => Except.noConfusion hc)
    | .ok _, .error _ => .isFalse (fun hc => Except.noConfusion hc)
    | .ok x, .ok y =>
      if h : x = y then .isTrue (h ▸ rfl) else .isFalse (fun hc => h (Except.ok.inj hc))

/-- Go errors are identified with their message strings. -/
abbrev GoError := String

/-- An HTTP request as built by `http.NewRequest`: method and URL
(the request body is not needed by any property proved here). -/
structure HttpRequest where
  method : String
  url : String
deriving Repr, DecidableEq

/-- An HTTP response: an identity for the body stream (used to trace which
bodies get closed) and the byte content of the body. -/
structure HttpResponse where
  bodyId : Nat
  bodyData : List Nat
deriving Repr, DecidableEq

/-- Outcome of `client.Do` on one attempt. -/
inductive DoOutcome
  | fail (e : GoError)
  | ok (r : HttpResponse)
deriving Repr, DecidableEq

/-- Result of `ExpBackoffRequest`: the returned `(resp, err)` pair, the list
of durations passed to `time.Sleep` (in nanoseconds, in order), and how many
times `client.Do` and the request builder `f` were invoked. -/
structure BackoffTrace where
  result : Except GoError HttpResponse
  sleepsNs : List Nat
  doCalls : Nat
  buildCalls : Nat
deriving Repr, DecidableEq

/-- The duration slept after failed attempt `attempt`, in nanoseconds.
The source computes `backoff := (math.Pow(2, float64(attempt)) - 1) / 2`
(exact in float64 for attempts 1..5: 0.5, 1.5, 3.5, 7.5, 15.5) and then
`time.Duration(backoff) * time.Second`: the float-to-integer conversion
truncates toward zero before the scaling by one second, so the slept
durations are whole seconds 0, 1, 3, 7, 15.  Nat division `(2 ^ k - 1) / 2`
is exactly that truncation. -/
def sleepNanos (attempt : Nat) : Nat := ((2 ^ attempt - 1) / 2) * 1000000000

/-- The loop body of `ExpBackoffRequest`, iterated over the remaining attempt
numbers.  Each iteration calls the builder `f` afresh (a builder error
returns immediately with no sleep), performs `client.Do` (success returns
immediately), and on transport failure sleeps and continues; when the
attempts are exhausted the last transport error is returned. -/
def runBackoffAux (buildOf : Nat → Except GoError HttpRequest)
    (doCall : Nat → DoOutcome) : List Nat → GoError → BackoffTrace
  | [], lastErr => ⟨.error lastErr, [], 0, 0⟩
  | a :: rest, _lastErr =>
    match buildOf a with
    | .error e => ⟨.error e, [], 0, 1⟩
    | .ok _req =>
      match doCall a with
      | .ok r => ⟨.ok r, [], 1, 1⟩
      | .fail e =>
        let t := runBackoffAux buildOf doCall rest e
        ⟨t.result, sleepNanos a :: t.sleepsNs, t.doCalls + 1, t.buildCalls + 1⟩

/-- `ExpBackoffRequest`: `for attempt := 1; attempt < 6; attempt++`, so the
attempt numbers are exactly 1, 2, 3, 4, 5. -/
def ExpBackoffRequest (buildOf : Nat → Except GoError HttpRequest)
    (doCall : Nat → DoOutcome) : BackoffTrace :=
  runBackoffAux buildOf doCall [1, 2, 3, 4, 5] ("")

/-- The request builder closure `f` of each operation: `http.NewRequest`
either fails with the environment-supplied error or yields the request with
the given method and URL.  The closure is deterministic, so every attempt
observes the same outcome. -/
def opBuild (newRequestErr : Option GoError) (method url : String) :
    Nat → Except GoError HttpRequest :=
  fun _ =>
    match newRequestErr with
    | some e => .error e
    | none => .ok ⟨method, url⟩

end Gossip

namespace Gossip

/-- Characters Go's `url.QueryEscape` leaves unescaped: alphanumerics and
`-`, `_`, `.`, `~`. -/
def isUnreservedQueryChar (c : Char) : Bool :=
  (('a' ≤ c && c ≤ 'z') || ('A' ≤ c && c ≤ 'Z') || ('0' ≤ c && c ≤ '9')
    || c == '-' || c == '_' || c == '.' || c == '~')

/-- Uppercase hexadecimal digit, as used by Go's percent-encoding. -/
def hexDigit (n : Nat) : Char :=
  if n < 10 then Char.ofNat ((('0').toNat) + n) else Char.ofNat ((('A').toNat) + (n - 10))

/-- Escape one character the way `url.QueryEscape` does: unreserved
characters pass through, a space becomes `+`, anything else becomes `%XX`
(faithful to Go for ASCII input, where bytes and characters coincide). -/
def escapeQueryChar (c : Char) : List Char :=
  if isUnreservedQueryChar c then [c]
  else if c == ' ' then ['+']
  else ['%', hexDigit (c.toNat / 16), hexDigit (c.toNat % 16)]

/-- Model of Go's `url.QueryEscape` on ASCII strings. -/
def queryEscape (s : String) : String :=
  String.mk (List.flatten (s.toList.map escapeQueryChar))

/-- `NodesList` is used to return the list of nodes
(`id`, `ip`, `hostname`, `bindAddress`, `alive`). -/
structure NodesList where
  ID : Nat
  IP : String
  Hostname : String
  BindAddress : String
  Alive : Bool
deriving Repr, DecidableEq

/-- The zero value of `NodesList`, which Go map indexing yields at an absent
key: numeric zero, empty strings, `false`. -/
def zeroNodesList : NodesList := ⟨0, (""), (""), (""), false⟩

/-- A Go `map[uint64]NodesList`, as a partial lookup function. -/
abbrev NodeMap := Nat → Option NodesList

/-- Go map indexing `m[k]`: the stored record, or the zero value when the key
is absent (also when `m` is the nil map). -/
def mapIndex (m : NodeMap) (k : Nat) : NodesList :=
  (m k).getD zeroNodesList

/-- One step of the `for _, node := range nodeList` loop:
`nodeMap[node.ID] = node`, overwriting any earlier binding of the key. -/
def nodeMapInsert (m : NodeMap) (node : NodesList) : NodeMap :=
  fun k => if k = node.ID then some node else m k

/-- The map built by `AliveNodesMap`'s range loop over the decoded array,
starting from the empty map. -/
def buildNodeMap (nodes : List NodesList) : NodeMap :=
  nodes.foldl nodeMapInsert (fun _ => none)

/-- The last record in `nodes` (in array order) whose identifier is `id`,
if any. -/
def lastWithID (id : Nat) : List NodesList → Option NodesList
  | [] => none
  | n :: rest =>
    match lastWithID id rest with
    | some r => some r
    | none => if n.ID = id then some n else none

end Gossip

namespace Gossip

/-- Environment of external outcomes for `AliveNodesMap`: the two
configuration strings read through viper, the `http.NewRequest` outcome
inside the builder closure, the per-attempt `client.Do` outcomes, and the
outcome of JSON-decoding a body's bytes into a `[]NodesList`. -/
structure AliveNodesEnv where
  cfluxEndpoint : String
  cluster : String
  newRequestErr : Option GoError
  doCall : Nat → DoOutcome
  jsonDecode : List Nat → Except GoError (List NodesList)

/-- Result of `AliveNodesMap`: the returned `(map, err)` pair, the GET
request its builder constructs, and the trace of body closes performed
before returning. -/
structure AliveNodesResult where
  result : Except GoError NodeMap
  request : HttpRequest
  closes : List Nat

/-- The URL `AliveNodesMap`'s closure builds:
`viper.GetString("CFLUX_ENDPOINT") + "/nodes/" + url.QueryEscape(viper.GetString("CLUSTER"))`. -/
def aliveNodesURL (env : AliveNodesEnv) : String :=
  env.cfluxEndpoint ++ ("/nodes/") ++ queryEscape env.cluster

/-- The builder closure `f` of `AliveNodesMap` (a GET with no body). -/
def aliveNodesBuild (env : AliveNodesEnv) : Nat → Except GoError HttpRequest :=
  opBuild env.newRequestErr ("GET") (aliveNodesURL env)

/-- `AliveNodesMap`: retried GET to the membership endpoint, JSON-decode of
the body into a list, then a range loop keying the records by `node.ID`.
The response body is never closed on any path. -/
def AliveNodesMap (env : AliveNodesEnv) : AliveNodesResult :=
  let req : HttpRequest := ⟨("GET"), aliveNodesURL env⟩
  match (ExpBackoffRequest (aliveNodesBuild env) env.doCall).result with
  | .error e => ⟨.error e, req, []⟩
  | .ok resp =>
    match env.jsonDecode resp.bodyData with
    | .error e => ⟨.error e, req, []⟩
    | .ok nodeList => ⟨.ok (buildNodeMap nodeList), req, []⟩

/-- `RemoteIteratorCreator` implements `influxql.IteratorCreator` for one
shard on one remote node (the local store handle is unused by this logic). -/
structure RemoteIteratorCreator where
  ShardID : Nat
  NodeID : Nat
deriving Repr, DecidableEq

/-- Modelled from the spec: value-kind tag of the `ReadShardCommandResponse`
envelope (the generated protobuf enum is not part of the excerpt); the four
declared scalar kinds, with standard protobuf numbering from zero. -/
def ReadShardCommandResponse_FLOAT : Nat := 0

/-- Modelled from the spec: the integer value kind. -/
def ReadShardCommandResponse_INTEGER : Nat := 1

/-- Modelled from the spec: the string value kind. -/
def ReadShardCommandResponse_STRING : Nat := 2

/-- Modelled from the spec: the boolean value kind. -/
def ReadShardCommandResponse_BOOLEAN : Nat := 3

/-- The decoded `/read` response envelope: only its value-kind tag (`Type`
in the source; `Type` is reserved in Lean) matters to the dispatch. -/
structure ReadShardCommandResponse where
  Type' : Nat
deriving Repr, DecidableEq

/-- The scalar value kind of a constructed `RemoteIterator` variant. -/
inductive IterKind
  | float
  | integer
  | string
  | boolean
deriving Repr, DecidableEq

/-- A constructed `RemoteIterator` variant: its kind, the bytes the point
decoder bound to the response body can still pull, and the `Closed` flag. -/
structure RemoteIteratorState where
  kind : IterKind
  decoderInput : List Nat
  Closed : Bool
deriving Repr, DecidableEq

/-- Environment of external outcomes for `CreateIterator`. -/
structure CIEnv where
  aliveEnv : AliveNodesEnv
  marshalOptions : Except GoError (List Nat)
  protoMarshal : Except GoError (List Nat)
  newRequestErr : Option GoError
  doCall : Nat → DoOutcome
  readAllErr : Option GoError
  unmarshal : List Nat → Except GoError ReadShardCommandResponse

/-- Result of `CreateIterator`: the returned `(iterator, err)` pair, the
trace of body closes performed before returning, and the request URL the
builder closure constructs (when control reaches it). -/
structure CIResult where
  result : Except GoError RemoteIteratorState
  closes : List Nat
  builtUrl : Option String
deriving Repr, DecidableEq

/-- The `/read` URL: `"http://" + aliveNodes[ric.NodeID].BindAddress + "/read"`. -/
def readURL (aliveNodes : NodeMap) (nodeID : Nat) : String :=
  ("http://") ++ (mapIndex aliveNodes nodeID).BindAddress ++ ("/read")

/-- The `/fielddimensions` URL built by `FieldDimensions`. -/
def fieldDimensionsURL (aliveNodes : NodeMap) (nodeID : Nat) : String :=
  ("http://") ++ (mapIndex aliveNodes nodeID).BindAddress ++ ("/fielddimensions")

/-- The `/expandsources` URL built by `ExpandSources`. -/
def expandSourcesURL (aliveNodes : NodeMap) (nodeID : Nat) : String :=
  ("http://") ++ (mapIndex aliveNodes nodeID).BindAddress ++ ("/expandsources")

/-- The `switch iterType` dispatch of `CreateIterator`: one iterator variant
per declared kind, and `fmt.Errorf("Unsupported iterator type: %d", ...)`
for anything else. -/
def iteratorForType (decoderInput : List Nat) (iterType : Nat) :
    Except GoError RemoteIteratorState :=
  if iterType = ReadShardCommandResponse_FLOAT then .ok ⟨.float, decoderInput, false⟩
  else if iterType = ReadShardCommandResponse_INTEGER then .ok ⟨.integer, decoderInput, false⟩
  else if iterType = ReadShardCommandResponse_STRING then .ok ⟨.string, decoderInput, false⟩
  else if iterType = ReadShardCommandResponse_BOOLEAN then .ok ⟨.boolean, decoderInput, false⟩
  else .error (("Unsupported iterator type: ") ++ toString iterType)

/-- The transport-and-decode tail of `CreateIterator`: the retried POST, then
`ioutil.ReadAll(resp.Body)` — which reads the body to end-of-stream, so the
point decoder subsequently constructed over `resp.Body` can pull only the
bytes past the position `ReadAll` left, i.e. none — then `proto.Unmarshal`
of everything `ReadAll` returned, then the kind dispatch. -/
def createIteratorExchange (env : CIEnv) (url : String) :
    Except GoError RemoteIteratorState :=
  match (ExpBackoffRequest (opBuild env.newRequestErr ("POST") url) env.doCall).result with
  | .error e => .error e
  | .ok resp =>
    match env.readAllErr with
    | some e => .error e
    | none =>
      let respBody := resp.bodyData
      let decoderInput := resp.bodyData.drop respBody.length
      match env.unmarshal respBody with
      | .error e => .error e
      | .ok respMessage => iteratorForType decoderInput respMessage.Type'

/-- `CreateIterator`: resolves the directory — but the source overwrites the
resolver's `err` with the result of `opt.MarshalBinary()` on the next line
without checking it, so a failed resolution just leaves `aliveNodes` as the
nil map — marshals the options and the command, builds the `/read` URL from
`aliveNodes[ric.NodeID]` (the zero value when absent), and runs the
exchange.  No path in `CreateIterator` closes the response body during the
call: the `closeBody` closure is only stored inside the four iterator
variants, and the `default` branch returns without invoking it. -/
def CreateIterator (ric : RemoteIteratorCreator) (env : CIEnv) : CIResult :=
  let aliveNodes : NodeMap :=
    match (AliveNodesMap env.aliveEnv).result with
    | .ok m => m
    | .error _ => fun _ => none
  match env.marshalOptions with
  | .error e => ⟨.error e, [], none⟩
  | .ok _optBinary =>
    match env.protoMarshal with
    | .error e => ⟨.error e, [], none⟩
    | .ok _data =>
      let url := readURL aliveNodes ric.NodeID
      ⟨createIteratorExchange env url, [], some url⟩

/-- The decoded `/fielddimensions` response envelope. -/
structure FieldDimensionsCommandResponse where
  Error : String
  Fields : List (String × Nat)
  Dimensions : List String
deriving Repr, DecidableEq

/-- Environment of external outcomes for `FieldDimensions`. -/
structure FDEnv where
  marshalSources : Except GoError (List Nat)
  protoMarshal : Except GoError (List Nat)
  aliveEnv : AliveNodesEnv
  newRequestErr : Option GoError
  doCall : Nat → DoOutcome
  readAllErr : Option GoError
  unmarshal : List Nat → Except GoError FieldDimensionsCommandResponse

/-- Result of `FieldDimensions`: the three returned values
`(fields, dimensions, err)` — `none` models a nil map — plus the trace of
body closes and the request URL the builder constructs. -/
structure FDResult where
  fields : Option (String → Option Nat)
  dimensions : Option (String → Bool)
  err : Option GoError
  closes : List Nat
  builtUrl : Option String

/-- The `fields` map built from `respMessage.GetFields()` by the range loop. -/
def buildFieldsMap (l : List (String × Nat)) : String → Option Nat :=
  l.foldl (fun m kv => fun k => if k = kv.1 then some kv.2 else m k) (fun _ => none)

/-- The `dimensions` set built from `respMessage.Dimensions` by the range loop. -/
def buildDimSet (l : List String) : String → Bool :=
  l.foldl (fun s d => fun k => if k = d then true else s k) (fun _ => false)

/-- The part of `FieldDimensions` after the transport succeeded.  The source
registers `defer resp.Body.Close()` immediately after the `ReadAll` line, so
every return path below — read failure, decode failure, embedded remote
error, success — closes the body exactly once. -/
def fdAfterBody (env : FDEnv) (resp : HttpResponse) (url : String) : FDResult :=
  match env.readAllErr with
  | some e => ⟨none, none, some e, [resp.bodyId], some url⟩
  | none =>
    match env.unmarshal resp.bodyData with
    | .error e => ⟨none, none, some e, [resp.bodyId], some url⟩
    | .ok respMessage =>
      if respMessage.Error ≠ ("") then
        ⟨none, none, some respMessage.Error, [resp.bodyId], some url⟩
      else
        ⟨some (buildFieldsMap respMessage.Fields),
          some (buildDimSet respMessage.Dimensions),
          none, [resp.bodyId], some url⟩

/-- `FieldDimensions`: marshals the sources and the command, resolves the
directory (checking its error, unlike `CreateIterator`), POSTs to
`/fielddimensions` with backoff, and hands the response to `fdAfterBody`. -/
def FieldDimensions (ric : RemoteIteratorCreator) (env : FDEnv) : FDResult :=
  match env.marshalSources with
  | .error e => ⟨none, none, some e, [], none⟩
  | .ok _sourceBinary =>
    match env.protoMarshal with
    | .error e => ⟨none, none, some e, [], none⟩
    | .ok _fdcBinary =>
      match (AliveNodesMap env.aliveEnv).result with
      | .error e => ⟨none, none, some e, [], none⟩
      | .ok aliveNodes =>
        let url := fieldDimensionsURL aliveNodes ric.NodeID
        match (ExpBackoffRequest (opBuild env.newRequestErr ("POST") url) env.doCall).result with
        | .error e => ⟨none, none, some e, [], some url⟩
        | .ok resp => fdAfterBody env resp url

/-- The decoded `/expandsources` response envelope. -/
structure ExpandSourcesCommandResponse where
  Error : String
  Sources : List Nat
deriving Repr, DecidableEq

/-- Environment of external outcomes for `ExpandSources`; `unmarshalSources`
is `respSources.UnmarshalBinary`, yielding an abstract `influxql.Sources`
value identified by a number. -/
structure ESEnv where
  marshalSources : Except GoError (List Nat)
  protoMarshal : Except GoError (List Nat)
  aliveEnv : AliveNodesEnv
  newRequestErr : Option GoError
  doCall : Nat → DoOutcome
  readAllErr : Option GoError
  unmarshal : List Nat → Except GoError ExpandSourcesCommandResponse
  unmarshalSources : List Nat → Except GoError Nat

/-- Result of `ExpandSources`: the returned `(sources, err)` pair, the body
closes performed, and the request URL the builder constructs. -/
structure ESResult where
  result : Except GoError Nat
  closes : List Nat
  builtUrl : Option String
deriving Repr, DecidableEq

/-- The part of `ExpandSources` after the transport succeeded; as in
`FieldDimensions`, the deferred close runs once on every return path. -/
def esAfterBody (env : ESEnv) (resp : HttpResponse) (url : String) : ESResult :=
  match env.readAllErr with
  | some e => ⟨.error e, [resp.bodyId], some url⟩
  | none =>
    match env.unmarshal resp.bodyData with
    | .error e => ⟨.error e, [resp.bodyId], some url⟩
    | .ok respMessage =>
      if respMessage.Error ≠ ("") then
        ⟨.error respMessage.Error, [resp.bodyId], some url⟩
      else
        match env.unmarshalSources respMessage.Sources with
        | .error e => ⟨.error e, [resp.bodyId], some url⟩
        | .ok respSources => ⟨.ok respSources, [resp.bodyId], some url⟩

/-- `ExpandSources`: marshals, resolves the directory (checking its error),
POSTs to `/expandsources` with backoff, and hands the response to
`esAfterBody`. -/
def ExpandSources (ric : RemoteIteratorCreator) (env : ESEnv) : ESResult :=
  match env.marshalSources with
  | .error e => ⟨.error e, [], none⟩
  | .ok _sourceBinary =>
    match env.protoMarshal with
    | .error e => ⟨.error e, [], none⟩
    | .ok _cmdBinary =>
      match (AliveNodesMap env.aliveEnv).result with
      | .error e => ⟨.error e, [], none⟩
      | .ok aliveNodes =>
        let url := expandSourcesURL aliveNodes ric.NodeID
        match (ExpBackoffRequest (opBuild env.newRequestErr ("POST") url) env.doCall).result with
        | .error e => ⟨.error e, [], some url⟩
        | .ok resp => esAfterBody env resp url

/-- A live cluster node with identifier 1. -/
def node1 : NodesList := ⟨1, ("10.0.0.1"), ("host1"), ("10.0.0.1:9000"), true⟩

/-- A node with identifier 2 whose liveness flag is false. -/
def node2dead : NodesList := ⟨2, ("10.0.0.2"), ("host2"), ("10.0.0.2:9000"), false⟩

/-- Two records sharing identifier 1: the earlier one in array order. -/
def nodeA : NodesList := ⟨1, ("10.0.0.1"), ("a"), ("10.0.0.1:9000"), true⟩

/-- Two records sharing identifier 1: the later one in array order. -/
def nodeB : NodesList := ⟨1, ("10.0.0.9"), ("b"), ("10.0.0.9:9000"), false⟩

/-- A creator targeting shard 42 on node 1. -/
def ric1 : RemoteIteratorCreator := ⟨42, 1⟩

/-- A creator targeting shard 42 on node 2 (absent from the directory built
from `[node1]`). -/
def ric2 : RemoteIteratorCreator := ⟨42, 2⟩

/-- A resolver environment whose control-plane exchange succeeds and decodes
to the single-node directory `[node1]`. -/
def okAliveEnv : AliveNodesEnv :=
  ⟨("http://cflux:8000"), ("prod"), none, fun _ => .ok ⟨3, [5]⟩, fun _ => .ok [node1]⟩

/-- A resolver environment in which every `client.Do` attempt fails, so
`AliveNodesMap` returns a transport error. -/
def c2AliveEnv : AliveNodesEnv :=
  ⟨("http://cflux:8000"), ("prod"), none, fun _ => .fail ("connection refused"),
    fun _ => .error ("never decoded")⟩

/-- `CreateIterator` input in which directory resolution fails but every
later step — marshaling, the `/read` POST, the body read, the envelope
decode — succeeds with a FLOAT value kind. -/
def c2Env : CIEnv :=
  ⟨c2AliveEnv, .ok [1], .ok [2], none, fun _ => .ok ⟨7, [10, 11]⟩, none,
    fun _ => .ok ⟨ReadShardCommandResponse_FLOAT⟩⟩

/-- `CreateIterator` input whose successfully transported response envelope
declares value kind 7, which matches no iterator variant. -/
def c3Env : CIEnv :=
  ⟨okAliveEnv, .ok [1], .ok [2], none, fun _ => .ok ⟨9, [1, 2]⟩, none,
    fun _ => .ok ⟨7⟩⟩

/-- `CreateIterator` input for a target node absent from the directory; the
transport and decode succeed with a FLOAT value kind. -/
def c4Env : CIEnv :=
  ⟨okAliveEnv, .ok [1], .ok [2], none, fun _ => .ok ⟨13, [6]⟩, none,
    fun _ => .ok ⟨ReadShardCommandResponse_FLOAT⟩⟩

/-- `FieldDimensions` input for a target node absent from the directory. -/
def c4fEnv : FDEnv :=
  ⟨.ok [1], .ok [2], okAliveEnv, none, fun _ => .ok ⟨31, [8]⟩, none,
    fun _ => .ok ⟨(""), [], []⟩⟩

/-- `ExpandSources` input for a target node absent from the directory. -/
def c4eEnv : ESEnv :=
  ⟨.ok [1], .ok [2], okAliveEnv, none, fun _ => .ok ⟨33, [8]⟩, none,
    fun _ => .ok ⟨(""), [9]⟩, fun _ => .ok 5⟩

/-- `CreateIterator` input whose response body holds a two-byte envelope
followed by three point bytes; the envelope decode succeeds only when
applied to the whole body, as the source does. -/
def c5Env : CIEnv :=
  ⟨okAliveEnv, .ok [1], .ok [2], none, fun _ => .ok ⟨11, [9, 9, 3, 4, 5]⟩, none,
    fun b => if b = [9, 9, 3, 4, 5] then .ok ⟨ReadShardCommandResponse_FLOAT⟩
      else .error ("bad envelope")⟩

/-- `FieldDimensions` input whose decoded response embeds the remote error
string `shard not found`. -/
def c6Env : FDEnv :=
  ⟨.ok [1], .ok [2], okAliveEnv, none, fun _ => .ok ⟨21, [8]⟩, none,
    fun _ => .ok ⟨("shard not found"), [], []⟩⟩

/-- Resolver environment decoding to a directory with one live and one
non-live node. -/
def c7Env : AliveNodesEnv :=
  ⟨("http://cflux:8000"), ("prod"), none, fun _ => .ok ⟨3, [5]⟩,
    fun _ => .ok [node1, node2dead]⟩

/-- Resolver environment decoding to two records with the same identifier. -/
def c8Env : AliveNodesEnv :=
  ⟨("http://cflux:8000"), ("prod"), none, fun _ => .ok ⟨4, [6]⟩,
    fun _ => .ok [nodeA, nodeB]⟩

/-- `FieldDimensions` input whose whole pipeline succeeds, for tracing body
closes on the success path. -/
def c9fEnv : FDEnv :=
  ⟨.ok [1], .ok [2], okAliveEnv, none, fun _ => .ok ⟨41, [8]⟩, none,
    fun _ => .ok ⟨(""), [(("f1"), 1)], [("d1")]⟩⟩

/-- `ExpandSources` input whose whole pipeline succeeds, for tracing body
closes on the success path. -/
def c9eEnv : ESEnv :=
  ⟨.ok [1], .ok [2], okAliveEnv, none, fun _ => .ok ⟨43, [8]⟩, none,
    fun _ => .ok ⟨(""), [7]⟩, fun _ => .ok 5⟩

end Gossip

namespace Gossip

theorem foldl_nodeMapInsert_eq (l : List NodesList) (init : NodeMap) (id : Nat) :
    (l.foldl nodeMapInsert init) id = (lastWithID id l).elim (init id) some := by
  induction l generalizing init with
  | nil => rfl
  | cons n rest ih =>
    show (rest.foldl nodeMapInsert (nodeMapInsert init n)) id = _
    rw [ih (nodeMapInsert init n)]
    cases hr : lastWithID id rest with
    | some r => simp [lastWithID, hr]
    | none =>
      simp only [lastWithID, hr, Option.elim]
      unfold nodeMapInsert
      by_cases h : n.ID = id
      · simp [h]
      · have h' : ¬ (id = n.ID) := fun hc => h hc.symm
        simp [h, h']

theorem buildNodeMap_eq_lastWithID (nodes : List NodesList) (id : Nat) :
    buildNodeMap nodes id = lastWithID id nodes := by
  unfold buildNodeMap
  rw [foldl_nodeMapInsert_eq]
  cases lastWithID id nodes <;> rfl

theorem lastWithID_mem {id : Nat} {l : List NodesList} {r : NodesList}
    (h : lastWithID id l = some r) : r ∈ l ∧ r.ID = id := by
  induction l with
  | nil => exact Option.noConfusion h
  | cons n rest ih =>
    simp only [lastWithID] at h
    cases hr : lastWithID id rest with
    | some s =>
      rw [hr] at h
      injection h with hsr
      subst hsr
      obtain ⟨hm, hi⟩ := ih hr
      exact ⟨List.mem_cons_of_mem n hm, hi⟩
    | none =>
      rw [hr] at h
      by_cases hn : n.ID = id
      · rw [if_pos hn] at h
        injection h with hnr
        subst hnr
        exact ⟨List.mem_cons_self _ _, hn⟩
      · rw [if_neg hn] at h
        exact Option.noConfusion h

theorem lastWithID_isSome_of_mem {id : Nat} {l : List NodesList} {n : NodesList}
    (hmem : n ∈ l) (hid : n.ID = id) : ∃ r, lastWithID id l = some r := by
  induction l with
  | nil => exact absurd hmem (List.not_mem_nil n)
  | cons m rest ih =>
    simp only [lastWithID]
    cases hr : lastWithID id rest with
    | some s => exact ⟨s, rfl⟩
    | none =>
      rcases List.mem_cons.mp hmem with h | h
      · subst h
        rw [if_pos hid]
        exact ⟨n, rfl⟩
      · rcases ih h with ⟨r, hr2⟩
        rw [hr] at hr2
        exact Option.noConfusion hr2

theorem lastWithID_append (id : Nat) (l1 l2 : List NodesList) :
    lastWithID id (l1 ++ l2) = (lastWithID id l2).elim (lastWithID id l1) some := by
  induction l1 with
  | nil =>
    show lastWithID id l2 = _
    cases lastWithID id l2 <;> rfl
  | cons n l1 ih =>
    have hstep : lastWithID id ((n :: l1) ++ l2) =
        match lastWithID id (l1 ++ l2) with
        | some r => some r
        | none => if n.ID = id then some n else none := rfl
    rw [hstep, ih]
    cases h2 : lastWithID id l2 with
    | some r => rfl
    | none => rfl

theorem lastWithID_eq_none {id : Nat} {l : List NodesList}
    (h : ∀ n, n ∈ l → n.ID ≠ id) : lastWithID id l = none := by
  induction l with
  | nil => rfl
  | cons n rest ih =>
    simp only [lastWithID, ih (fun m hm => h m (List.mem_cons_of_mem n hm))]
    rw [if_neg (h n (List.mem_cons_self n rest))]

theorem lastWithID_last {id : Nat} {r : NodesList} (l1 l2 : List NodesList)
    (hid : r.ID = id) (hnone : ∀ n, n ∈ l2 → n.ID ≠ id) :
    lastWithID id (l1 ++ r :: l2) = some r := by
  rw [lastWithID_append]
  have h2 : lastWithID id (r :: l2) = some r := by
    simp only [lastWithID, lastWithID_eq_none hnone]
    rw [if_pos hid]
  rw [h2]
  rfl

theorem fdAfterBody_closes (env : FDEnv) (resp : HttpResponse) (url : String) :
    (fdAfterBody env resp url).closes = [resp.bodyId] := by
  unfold fdAfterBody
  repeat' split
  all_goals rfl

theorem fdAfterBody_builtUrl (env : FDEnv) (resp : HttpResponse) (url : String) :
    (fdAfterBody env resp url).builtUrl = some url := by
  unfold fdAfterBody
  repeat' split
  all_goals rfl

theorem esAfterBody_closes (env : ESEnv) (resp : HttpResponse) (url : String) :
    (esAfterBody env resp url).closes = [resp.bodyId] := by
  unfold esAfterBody
  repeat' split
  all_goals rfl

theorem esAfterBody_builtUrl (env : ESEnv) (resp : HttpResponse) (url : String) :
    (esAfterBody env resp url).builtUrl = some url := by
  unfold esAfterBody
  repeat' split
  all_goals rfl

end Gossip

namespace Gossip

/-- C1 counterexample: with the HTTP call failing on every attempt, the
executor's sleep schedule is not the claimed half-second sequence
0.5s, 1.5s, 3.5s, 7.5s, and it is not 4 sleeps long: the float backoff is
truncated to whole seconds by the `time.Duration` conversion and a sleep
also happens after the failed 5th attempt, giving 0s, 1s, 3s, 7s, 15s. -/
theorem expBackoff_claimed_schedule_counterexample :
    ((ExpBackoffRequest (fun _ => .ok ⟨("POST"), ("http://node/read")⟩)
        (fun _ => .fail ("connection refused"))).sleepsNs
      = [0, 1000000000, 3000000000, 7000000000, 15000000000])
    ∧ ¬ ((ExpBackoffRequest (fun _ => .ok ⟨("POST"), ("http://node/read")⟩)
        (fun _ => .fail ("connection refused"))).sleepsNs
      = [500000000, 1500000000, 3500000000, 7500000000])
    ∧ ¬ ((ExpBackoffRequest (fun _ => .ok ⟨("POST"), ("http://node/read")⟩)
        (fun _ => .fail ("connection refused"))).sleepsNs.length = 4) := by
  decide

/-- C1 (amended): when the HTTP call fails on every attempt, the executor
makes exactly 5 attempts (5 builder calls and 5 `client.Do` calls), sleeps
`trunc((2^k − 1)/2)` whole seconds after each failed attempt k for
k = 1..5 — 0s, 1s, 3s, 7s, 15s, including a 15s sleep after the final
attempt — and returns the transport error of the 5th attempt. -/
theorem expBackoff_truncated_schedule (req : HttpRequest) (errs : Nat → GoError) :
    ExpBackoffRequest (fun _ => .ok req) (fun a => .fail (errs a)) =
      ⟨.error (errs 5), [0, 1000000000, 3000000000, 7000000000, 15000000000], 5, 5⟩ := by
  rfl

/-- C2: `CreateIterator` does not surface the error of `AliveNodesMap` —
the source overwrites `err` with the result of `opt.MarshalBinary()` without
checking it.  At an input where directory resolution fails with a transport
error and everything downstream succeeds, the operation returns a usable
iterator (and a URL built from the empty bind address) instead of an
error. -/
theorem createIterator_swallows_resolver_error :
    (AliveNodesMap c2Env.aliveEnv).result = .error ("connection refused")
    ∧ (CreateIterator ric1 c2Env).result = .ok ⟨.float, [], false⟩
    ∧ (CreateIterator ric1 c2Env).builtUrl = some ("http:///read") := by
  exact ⟨rfl, rfl, rfl⟩

/-- C3: on a response envelope declaring value kind 7 — which matches no
iterator variant — `CreateIterator` returns the unsupported-type error but
performs no close of the response body on the way out (its close trace is
empty): the `closeBody` closure is defined but never invoked on the
`default` branch. -/
theorem createIterator_unsupported_type_leaves_body_open :
    (CreateIterator ric1 c3Env).result = .error ("Unsupported iterator type: 7")
    ∧ (CreateIterator ric1 c3Env).closes = [] := by
  exact ⟨by decide, rfl⟩

/-- C5: `CreateIterator` consumes the entire response body with
`ioutil.ReadAll` before constructing the point decoder over `resp.Body`.
At an input whose body is the envelope bytes `[9, 9]` followed by point
bytes `[3, 4, 5]`, the constructed iterator's decoder has no bytes left to
pull — the remainder of the stream is not left unconsumed as claimed. -/
theorem createIterator_consumes_entire_body :
    (CreateIterator ric1 c5Env).result = .ok ⟨.float, [], false⟩
    ∧ ¬ ((CreateIterator ric1 c5Env).result = .ok ⟨.float, [3, 4, 5], false⟩) := by
  decide

/-- C10: `AliveNodesMap` closes the control-plane response body on no path:
its close trace is empty for every environment, whether the transport fails,
the JSON decode fails, or everything succeeds. -/
theorem aliveNodesMap_never_closes_body (env : AliveNodesEnv) :
    (AliveNodesMap env).closes = [] := by
  unfold AliveNodesMap
  repeat' split
  all_goals rfl

end Gossip

namespace Gossip

/-- C4 counterexample: with the directory successfully resolved to
`[node1]` and the target identifier 2 absent from it, `CreateIterator` does
not fail — it builds the request URL `http:///read` from the zero-value
node's empty bind address, proceeds with the HTTP call, and (the transport
and decode succeeding) returns a usable iterator. -/
theorem absent_node_claim_counterexample :
    (AliveNodesMap c4Env.aliveEnv).result = .ok (buildNodeMap [node1])
    ∧ buildNodeMap [node1] ric2.NodeID = none
    ∧ (CreateIterator ric2 c4Env).result = .ok ⟨.float, [], false⟩
    ∧ (CreateIterator ric2 c4Env).builtUrl = some ("http:///read") := by
  exact ⟨rfl, rfl, rfl, rfl⟩

/-- C4 (amended): none of the three operations checks directory membership;
whenever the resolved directory lacks the target node identifier, each of
`CreateIterator`, `FieldDimensions` and `ExpandSources` proceeds with the
zero-value node, building its request URL from the empty bind address
(`http:///read`, `http:///fielddimensions`, `http:///expandsources`) and
entering the retried HTTP call, rather than failing fast. -/
theorem absent_node_proceeds_with_zero_value (ric : RemoteIteratorCreator)
    (envC : CIEnv) (envF : FDEnv) (envE : ESEnv) (mC mF mE : NodeMap)
    (b1 b2 b3 b4 b5 b6 : List Nat)
    (hC1 : envC.marshalOptions = .ok b1) (hC2 : envC.protoMarshal = .ok b2)
    (hC3 : (AliveNodesMap envC.aliveEnv).result = .ok mC)
    (hC4 : mC ric.NodeID = none)
    (hF1 : envF.marshalSources = .ok b3) (hF2 : envF.protoMarshal = .ok b4)
    (hF3 : (AliveNodesMap envF.aliveEnv).result = .ok mF)
    (hF4 : mF ric.NodeID = none)
    (hE1 : envE.marshalSources = .ok b5) (hE2 : envE.protoMarshal = .ok b6)
    (hE3 : (AliveNodesMap envE.aliveEnv).result = .ok mE)
    (hE4 : mE ric.NodeID = none) :
    (CreateIterator ric envC).builtUrl = some ("http:///read")
    ∧ (FieldDimensions ric envF).builtUrl = some ("http:///fielddimensions")
    ∧ (ExpandSources ric envE).builtUrl = some ("http:///expandsources") := by
  have urlC : readURL mC ric.NodeID = ("http:///read") := by
    simp only [readURL, mapIndex, hC4]
    rfl
  have urlF : fieldDimensionsURL mF ric.NodeID = ("http:///fielddimensions") := by
    simp only [fieldDimensionsURL, mapIndex, hF4]
    rfl
  have urlE : expandSourcesURL mE ric.NodeID = ("http:///expandsources") := by
    simp only [expandSourcesURL, mapIndex, hE4]
    rfl
  refine ⟨?_, ?_, ?_⟩
  · rw [← urlC]
    simp only [CreateIterator, hC3, hC1, hC2]
  · rw [← urlF]
    simp only [FieldDimensions, hF1, hF2, hF3]
    split
    · rfl
    · exact fdAfterBody_builtUrl envF _ _
  · rw [← urlE]
    simp only [ExpandSources, hE1, hE2, hE3]
    split
    · rfl
    · exact esAfterBody_builtUrl envE _ _

/-- Witness for the amended C4 theorem, at the concrete inputs of the
counterexample: directory `[node1]`, target identifier 2. -/
theorem absent_node_proceeds_witness :
    (CreateIterator ric2 c4Env).builtUrl = some ("http:///read")
    ∧ (FieldDimensions ric2 c4fEnv).builtUrl = some ("http:///fielddimensions")
    ∧ (ExpandSources ric2 c4eEnv).builtUrl = some ("http:///expandsources") := by
  exact absent_node_proceeds_with_zero_value ric2 c4Env c4fEnv c4eEnv
    (buildNodeMap [node1]) (buildNodeMap [node1]) (buildNodeMap [node1])
    [1] [2] [1] [2] [1] [2]
    rfl rfl rfl rfl rfl rfl rfl rfl rfl rfl rfl rfl

/-- C6: whenever a `FieldDimensions` call's transport succeeds, its body
read and envelope decode succeed, and the decoded response embeds a
non-empty error string, the operation returns exactly that string as its
error — preserved verbatim — and `nil` (`none`) for both the fields map and
the dimensions map. -/
theorem fieldDimensions_remote_error_verbatim (ric : RemoteIteratorCreator)
    (env : FDEnv) (sb pb : List Nat) (m : NodeMap) (resp : HttpResponse)
    (msg : FieldDimensionsCommandResponse)
    (h1 : env.marshalSources = .ok sb) (h2 : env.protoMarshal = .ok pb)
    (h3 : (AliveNodesMap env.aliveEnv).result = .ok m)
    (h4 : (ExpBackoffRequest (opBuild env.newRequestErr ("POST")
        (fieldDimensionsURL m ric.NodeID)) env.doCall).result = .ok resp)
    (h5 : env.readAllErr = none)
    (h6 : env.unmarshal resp.bodyData = .ok msg)
    (h7 : msg.Error ≠ ("")) :
    (FieldDimensions ric env).fields = none
    ∧ (FieldDimensions ric env).dimensions = none
    ∧ (FieldDimensions ric env).err = some msg.Error := by
  have hfd : FieldDimensions ric env =
      ⟨none, none, some msg.Error, [resp.bodyId],
        some (fieldDimensionsURL m ric.NodeID)⟩ := by
    simp only [FieldDimensions, h1, h2, h3, h4, fdAfterBody, h5, h6]
    rw [if_pos h7]
  rw [hfd]
  exact ⟨rfl, rfl, rfl⟩

/-- Witness for C6 at a concrete input whose response embeds the error
string `shard not found`. -/
theorem fieldDimensions_remote_error_witness :
    (FieldDimensions ric1 c6Env).fields = none
    ∧ (FieldDimensions ric1 c6Env).dimensions = none
    ∧ (FieldDimensions ric1 c6Env).err = some ("shard not found") := by
  exact fieldDimensions_remote_error_verbatim ric1 c6Env [1] [2]
    (buildNodeMap [node1]) ⟨21, [8]⟩ ⟨("shard not found"), [], []⟩
    rfl rfl rfl rfl rfl rfl (by decide)

/-- C7: on every successful directory resolution, `AliveNodesMap` issues a
retried GET to the configured base URL plus `/nodes/` plus the URL-escaped
cluster name, returns the map built from the decoded JSON array keyed by
node identifier (every decoded record is reachable under its identifier and
every map entry comes from the array), and applies no liveness filtering:
records with `alive == false` appear in the directory. -/
theorem aliveNodesMap_contract (env : AliveNodesEnv) (resp : HttpResponse)
    (nodes : List NodesList)
    (ht : (ExpBackoffRequest (aliveNodesBuild env) env.doCall).result = .ok resp)
    (hd : env.jsonDecode resp.bodyData = .ok nodes) :
    (AliveNodesMap env).request =
      ⟨("GET"), env.cfluxEndpoint ++ ("/nodes/") ++ queryEscape env.cluster⟩
    ∧ (AliveNodesMap env).result = .ok (buildNodeMap nodes)
    ∧ (∀ n, n ∈ nodes → ∃ r, buildNodeMap nodes n.ID = some r ∧ r.ID = n.ID ∧ r ∈ nodes)
    ∧ (∀ id r, buildNodeMap nodes id = some r → r.ID = id ∧ r ∈ nodes)
    ∧ (∀ n, n ∈ nodes → n.Alive = false → (buildNodeMap nodes n.ID).isSome = true) := by
  have hmem : ∀ n, n ∈ nodes →
      ∃ r, buildNodeMap nodes n.ID = some r ∧ r.ID = n.ID ∧ r ∈ nodes := by
    intro n hn
    obtain ⟨r, hr⟩ := lastWithID_isSome_of_mem hn rfl
    have hp := lastWithID_mem hr
    exact ⟨r, by rw [buildNodeMap_eq_lastWithID]; exact hr, hp.2, hp.1⟩
  refine ⟨?_, ?_, hmem, ?_, ?_⟩
  · simp only [AliveNodesMap, aliveNodesURL, ht, hd]
  · simp only [AliveNodesMap, ht, hd]
  · intro id r h
    rw [buildNodeMap_eq_lastWithID] at h
    have hp := lastWithID_mem h
    exact ⟨hp.2, hp.1⟩
  · intro n hn _
    obtain ⟨r, hr, _, _⟩ := hmem n hn
    rw [hr]
    rfl

/-- Witness for C7 at a directory containing a live node and a node whose
liveness flag is false: the non-live node still appears. -/
theorem aliveNodesMap_contract_witness :
    (AliveNodesMap c7Env).request =
      ⟨("GET"), ("http://cflux:8000") ++ ("/nodes/") ++ queryEscape ("prod")⟩
    ∧ (AliveNodesMap c7Env).result = .ok (buildNodeMap [node1, node2dead])
    ∧ (buildNodeMap [node1, node2dead] node2dead.ID).isSome = true := by
  have h := aliveNodesMap_contract c7Env ⟨3, [5]⟩ [node1, node2dead] rfl rfl
  exact ⟨h.1, h.2.1, h.2.2.2.2 node2dead (by decide) rfl⟩

/-- C8: when the decoded array splits as `l1 ++ r :: l2` with `r.ID = id`
and no record of `l2` carrying `id`, the directory returned by
`AliveNodesMap` maps `id` to `r` — the last record with that identifier in
array order, later entries having overwritten earlier ones. -/
theorem aliveNodesMap_duplicate_last_wins (env : AliveNodesEnv)
    (resp : HttpResponse) (nodes l1 l2 : List NodesList) (r : NodesList)
    (id : Nat)
    (ht : (ExpBackoffRequest (aliveNodesBuild env) env.doCall).result = .ok resp)
    (hd : env.jsonDecode resp.bodyData = .ok nodes)
    (hsplit : nodes = l1 ++ r :: l2) (hid : r.ID = id)
    (hlast : ∀ n, n ∈ l2 → n.ID ≠ id) :
    (AliveNodesMap env).result = .ok (buildNodeMap nodes)
    ∧ buildNodeMap nodes id = some r := by
  constructor
  · simp only [AliveNodesMap, ht, hd]
  · rw [buildNodeMap_eq_lastWithID, hsplit]
    exact lastWithID_last l1 l2 hid hlast

/-- Witness for C8: two records share identifier 1 and the directory maps 1
to the later record `nodeB`. -/
theorem aliveNodesMap_duplicate_last_wins_witness :
    (AliveNodesMap c8Env).result = .ok (buildNodeMap [nodeA, nodeB])
    ∧ buildNodeMap [nodeA, nodeB] 1 = some nodeB := by
  exact aliveNodesMap_duplicate_last_wins c8Env ⟨4, [6]⟩ [nodeA, nodeB]
    [nodeA] [] nodeB 1 rfl rfl rfl rfl
    (fun n hn => absurd hn (List.not_mem_nil n))

/-- C9: whenever the transport round trip of `FieldDimensions` or
`ExpandSources` succeeds, the response body is closed exactly once before
the operation returns — the deferred close registered right after the
`ReadAll` line fires on every exit path: body-read failure, envelope-decode
failure, embedded remote error, and success alike. -/
theorem body_closed_once_on_success_paths (ric : RemoteIteratorCreator)
    (envF : FDEnv) (envE : ESEnv)
    (sbF pbF sbE pbE : List Nat) (mF mE : NodeMap) (respF respE : HttpResponse)
    (hF1 : envF.marshalSources = .ok sbF) (hF2 : envF.protoMarshal = .ok pbF)
    (hF3 : (AliveNodesMap envF.aliveEnv).result = .ok mF)
    (hF4 : (ExpBackoffRequest (opBuild envF.newRequestErr ("POST")
        (fieldDimensionsURL mF ric.NodeID)) envF.doCall).result = .ok respF)
    (hE1 : envE.marshalSources = .ok sbE) (hE2 : envE.protoMarshal = .ok pbE)
    (hE3 : (AliveNodesMap envE.aliveEnv).result = .ok mE)
    (hE4 : (ExpBackoffRequest (opBuild envE.newRequestErr ("POST")
        (expandSourcesURL mE ric.NodeID)) envE.doCall).result = .ok respE) :
    (FieldDimensions ric envF).closes = [respF.bodyId]
    ∧ (ExpandSources ric envE).closes = [respE.bodyId] := by
  constructor
  · simp only [FieldDimensions, hF1, hF2, hF3, hF4]
    exact fdAfterBody_closes envF respF _
  · simp only [ExpandSources, hE1, hE2, hE3, hE4]
    exact esAfterBody_closes envE respE _

/-- Witness for C9 on concrete successful pipelines: the bodies with
identities 41 and 43 are each closed exactly once. -/
theorem body_closed_once_witness :
    (FieldDimensions ric1 c9fEnv).closes = [41]
    ∧ (ExpandSources ric1 c9eEnv).closes = [43] := by
  exact body_closed_once_on_success_paths ric1 c9fEnv c9eEnv [1] [2] [1] [2]
    (buildNodeMap [node1]) (buildNodeMap [node1]) ⟨41, [8]⟩ ⟨43, [8]⟩
    rfl rfl rfl rfl rfl rfl rfl rfl

end Gossip
